import Mathlib

/-!
Verification of the glucosense backend (src/backend/app.py):
the request-validation and inference pipeline of the diabetes
prediction API.  JSON payloads, Python numeric coercion (`float`/`int`),
the `FIELD_RULES` registry, `validate_input`, and the `predict` route
are shallowly embedded; Python floats are modelled as rationals.
-/

set_option maxRecDepth 8000

attribute [local semireducible] Rat.mul Rat.add Rat.sub Rat.inv Rat.ofScientific

/-- JSON value as produced by Flask's `request.get_json`: null, booleans,
integers, non-integral numbers (modelled as rationals), strings, arrays
and objects (association lists; a later duplicate key overrides an
earlier one, as in Python's JSON parser). -/
inductive JValue : Type
  | jnull
  | jbool (b : Bool)
  | jint (n : ℤ)
  | jfloat (q : ℚ)
  | jstr (s : String)
  | jarr (elems : List JValue)
  | jobj (fields : List (String × JValue))

/-- Python truthiness of a parsed JSON value: the route's `if not body`
treats falsy bodies (null, false, 0, 0.0, empty string, empty array,
empty object) exactly like a missing body. -/
def JValue.truthy : JValue → Bool
  | .jnull => false
  | .jbool b => b
  | .jint n => n != 0
  | .jfloat q => q != 0
  | .jstr s => s != ""
  | .jarr elems => !elems.isEmpty
  | .jobj fields => !fields.isEmpty

/-- `data.get(field)` on the dict built from a JSON object: the binding of
the last occurrence of the key wins (later duplicates override), absent
keys give `none` (Python `None`). -/
def getField (data : List (String × JValue)) (name : String) : Option JValue :=
  data.foldl (fun acc p => if p.1 = name then some p.2 else acc) none

/-- Numeric value of a list of decimal digit characters. -/
def digitsVal (cs : List Char) : ℕ :=
  cs.foldl (fun a c => a * 10 + (c.toNat - 48)) 0

/-- A non-empty all-digit character list, as an integer. -/
def parseDigits (cs : List Char) : Option ℤ :=
  if cs.isEmpty || !cs.all Char.isDigit then none else some (digitsVal cs)

/-- Surrounding whitespace stripped, as Python's numeric constructors
do before parsing. -/
def trimChars (cs : List Char) : List Char :=
  ((cs.dropWhile Char.isWhitespace).reverse.dropWhile Char.isWhitespace).reverse

/-- Python `int(s)` on a string, for the common forms: surrounding
whitespace is ignored, an optional sign precedes a non-empty digit run;
anything else (in particular a string with a decimal point) raises
`ValueError`, modelled as `none`. -/
def parseIntStr (s : String) : Option ℤ :=
  match trimChars s.toList with
  | '-' :: rest => (parseDigits rest).map Neg.neg
  | '+' :: rest => parseDigits rest
  | cs => parseDigits cs

/-- Unsigned decimal literal: a non-empty digit run, optionally with a
decimal point (`"12"`, `"12.5"`, `"12."`, `".5"`). -/
def parseDecimal (cs : List Char) : Option ℚ :=
  let ip := cs.takeWhile Char.isDigit
  match cs.dropWhile Char.isDigit with
  | [] => if ip.isEmpty then none else some (digitsVal ip : ℚ)
  | '.' :: fp =>
      if fp.all Char.isDigit && !(ip.isEmpty && fp.isEmpty) then
        some ((digitsVal ip : ℚ) + (digitsVal fp : ℚ) / (10 : ℚ) ^ fp.length)
      else none
  | _ => none

/-- Python `float(s)` on a string, for the common decimal forms:
surrounding whitespace ignored, optional sign, decimal literal
(exponent and special forms such as `"inf"` are not modelled). -/
def parseFloatStr (s : String) : Option ℚ :=
  match trimChars s.toList with
  | '-' :: rest => (parseDecimal rest).map Neg.neg
  | '+' :: rest => parseDecimal rest
  | cs => parseDecimal cs

/-- Truncation toward zero, the behaviour of Python `int()` on a float. -/
def ratTrunc (q : ℚ) : ℤ :=
  if 0 ≤ q then ⌊q⌋ else ⌈q⌉

/-- Python `float(value)` applied to a parsed JSON value: numbers pass
through, booleans become 0/1, strings are parsed as decimals; `None`,
lists and dicts raise `TypeError`, modelled as `none`. -/
def pyFloat : JValue → Option ℚ
  | .jint n => some (n : ℚ)
  | .jfloat q => some q
  | .jbool b => some (if b then 1 else 0)
  | .jstr s => parseFloatStr s
  | _ => none

/-- Python `int(value)` applied to a parsed JSON value: integers pass
through, a float is truncated toward zero, booleans become 0/1, strings
must parse as integers; `None`, lists and dicts raise `TypeError`,
modelled as `none`. -/
def pyInt : JValue → Option ℤ
  | .jint n => some n
  | .jfloat q => some (ratTrunc q)
  | .jbool b => some (if b then 1 else 0)
  | .jstr s => parseIntStr s
  | _ => none

/-- One entry of `FIELD_RULES`: inclusive range, the coercion type
(`isInt` true means Python `int`, false means `float`), and the
renderings of the bounds that Python's f-string interpolation produces
in the out-of-range message. -/
structure FieldRule where
  min : ℚ
  max : ℚ
  isInt : Bool
  minStr : String
  maxStr : String
deriving DecidableEq, Repr

/-- The `FIELD_RULES` registry of src/backend/app.py, in declaration
order. -/
def FIELD_RULES : List (String × FieldRule) :=
  [("Pregnancies", ⟨0, 20, false, "0", "20"⟩),
   ("Glucose", ⟨50, 250, false, "50", "250"⟩),
   ("BloodPressure", ⟨30, 150, false, "30", "150"⟩),
   ("SkinThickness", ⟨0, 100, false, "0", "100"⟩),
   ("Insulin", ⟨0, 900, false, "0", "900"⟩),
   ("BMI", ⟨10, 70, false, "10", "70"⟩),
   ("DiabetesPedigreeFunction", ⟨1 / 20, 5 / 2, false, "0.05", "2.5"⟩),
   ("Age", ⟨18, 100, true, "18", "100"⟩)]

/-- Modelled from the spec: the `feature_names.pkl` artifact is loaded
at startup and is not in the repository; the spec fixes it to the eight
clinical feature names in `FIELD_RULES` declaration order ("ordering of
the full set defines feature-vector ordering"). -/
def feature_names : List String :=
  FIELD_RULES.map Prod.fst

/-- The f-string `'<field>' is required.` -/
def requiredMsg (field : String) : String :=
  "'" ++ field ++ "' is required."

/-- The f-string `'<field>' must be a number.` -/
def numberMsg (field : String) : String :=
  "'" ++ field ++ "' must be a number."

/-- The f-string `'<field>' must be between <min> and <max>.` -/
def rangeMsg (field : String) (minS maxS : String) : String :=
  "'" ++ field ++ "' must be between " ++ minS ++ " and " ++ maxS ++ "."

/-- `rule["type"](value)`: the registry's coercion applied to a raw
value, as a rational (the Python vector is converted to float by
`np.array(vector, dtype=float)` anyway). -/
def coerceValue (rule : FieldRule) (v : JValue) : Option ℚ :=
  if rule.isInt then (pyInt v).map (fun n => (n : ℚ)) else pyFloat v

/-- The body of the `validate_input` loop for a single field: absent or
JSON-null values give the required-field error, a failed coercion the
must-be-a-number error, an out-of-range coerced value the range error;
otherwise the coerced value is produced. -/
def checkField (field : String) (rule : FieldRule) (value? : Option JValue) :
    Except String ℚ :=
  match value? with
  | none => .error (requiredMsg field)
  | some .jnull => .error (requiredMsg field)
  | some v =>
      match coerceValue rule v with
      | none => .error (numberMsg field)
      | some x =>
          if rule.min ≤ x ∧ x ≤ rule.max then .ok x
          else .error (rangeMsg field rule.minStr rule.maxStr)

/-- `validate_input(data)`: scan every field of the registry in order
(the Python loop runs over `feature_names`, which per the startup
invariant are exactly the registry keys in declaration order),
accumulating errors and coerced values; returns the feature vector only
when no error occurred, mirroring
`(np.array(vector, dtype=float) if not errors else None), errors`. -/
def validate_input (data : List (String × JValue)) :
    Option (List ℚ) × List String :=
  let acc := FIELD_RULES.foldl
    (fun (acc : List String × List ℚ) p =>
      match checkField p.1 p.2 (getField data p.1) with
      | .error e => (acc.1 ++ [e], acc.2)
      | .ok x => (acc.1, acc.2 ++ [x]))
    ([], [])
  ((if acc.1 = [] then some acc.2 else none), acc.1)

/-- The Inference Engine (external collaborator): the pre-fitted scaler
and classifier loaded at startup.  `scale` is `scaler.transform` on one
row, `predictClass` is `int(model.predict(scaled)[0])`, `predictProba`
is `float(model.predict_proba(scaled)[0][1])`, the positive-class
probability. -/
structure Engine where
  scale : List ℚ → List ℚ
  predictClass : List ℚ → ℤ
  predictProba : List ℚ → ℚ

/-- `proba if pred_class == 1 else (1 - proba)`: confidence in the
predicted label. -/
def confidence_pct (proba : ℚ) (pred_class : ℤ) : ℚ :=
  if pred_class = 1 then proba else 1 - proba

/-- The confidence bucket chain of `predict`: >= 0.80 "High", else
>= 0.60 "Moderate", else "Low". -/
def confidence_label (score : ℚ) : String :=
  if score ≥ 80 / 100 then "High"
  else if score ≥ 60 / 100 then "Moderate"
  else "Low"

/-- Round half to even on an exact rational, the behaviour of Python's
built-in `round` at a representable midpoint. -/
def roundHalfEven (q : ℚ) : ℤ :=
  if q - ⌊q⌋ < 1 / 2 then ⌊q⌋
  else if q - ⌊q⌋ > 1 / 2 then ⌊q⌋ + 1
  else if ⌊q⌋ % 2 = 0 then ⌊q⌋ else ⌊q⌋ + 1

/-- `round(x, 4)`: four decimal places. -/
def round4 (q : ℚ) : ℚ :=
  (roundHalfEven (q * 10000) : ℚ) / 10000

/-- The JSON object returned by a successful `predict` call. -/
structure SuccessBody where
  prediction : String
  diabetic : Bool
  probability : ℚ
  confidence : String
  confidence_score : ℚ
  model : String
  input_features : List (String × ℚ)
deriving DecidableEq, Repr

/-- Outcome of the `/predict` route: the single malformed-request error
(HTTP 400), the accumulated validation errors (HTTP 422), a successful
prediction (HTTP 200), or an uncaught exception (HTTP 500; reached when
a truthy non-object body makes `data.get` raise `AttributeError`). -/
inductive PredictResult : Type
  | malformed (error : String)
  | invalid (errors : List String)
  | success (body : SuccessBody)
  | fault
deriving DecidableEq, Repr

/-- HTTP status attached to each outcome. -/
def statusOf : PredictResult → ℕ
  | .malformed _ => 400
  | .invalid _ => 422
  | .success _ => 200
  | .fault => 500

/-- The `/predict` route. `body?` is `request.get_json(silent=True)`:
`none` when the body is absent or not parseable as JSON.  `modelName`
is `metrics_data.get("best_model", "Random Forest")`, static metadata.
The branch for a valid body with an empty error list but no vector is
unreachable (`validate_input` returns a vector exactly when the error
list is empty) and is modelled as a fault, as the Python code would
raise on `None.reshape`. -/
def predict (eng : Engine) (modelName : String) (body? : Option JValue) :
    PredictResult :=
  match body? with
  | none => .malformed "Request body must be JSON."
  | some body =>
      if !body.truthy then .malformed "Request body must be JSON."
      else
        match body with
        | .jobj data =>
            match validate_input data with
            | (_, e :: es) => .invalid (e :: es)
            | (none, []) => .fault
            | (some feature_vector, []) =>
                let scaled := eng.scale feature_vector
                let pred_class := eng.predictClass scaled
                let proba := eng.predictProba scaled
                let pct := confidence_pct proba pred_class
                .success
                  { prediction :=
                      if pred_class = 1 then "Diabetic" else "Not Diabetic",
                    diabetic := pred_class != 0,
                    probability := round4 proba,
                    confidence := confidence_label pct,
                    confidence_score := round4 pct,
                    model := modelName,
                    input_features := feature_names.zip feature_vector }
        | _ => .fault

/-- An engine returning a constant class and positive-class probability,
for exercising the route on concrete inputs. -/
def constEngine (c : ℤ) (p : ℚ) : Engine :=
  { scale := fun v => v, predictClass := fun _ => c, predictProba := fun _ => p }

/-- The example request body of the spec:
Pregnancies 2, Glucose 120, BloodPressure 70, SkinThickness 20,
Insulin 80, BMI 25.0, DiabetesPedigreeFunction 0.5, Age 33. -/
def exampleBody : List (String × JValue) :=
  [("Pregnancies", .jint 2),
   ("Glucose", .jint 120),
   ("BloodPressure", .jint 70),
   ("SkinThickness", .jint 20),
   ("Insulin", .jint 80),
   ("BMI", .jfloat 25),
   ("DiabetesPedigreeFunction", .jfloat (1 / 2)),
   ("Age", .jint 33)]

/-- The coerced feature vector of `exampleBody`. -/
def exampleVector : List ℚ :=
  [2, 120, 70, 20, 80, 25, 1 / 2, 33]

example : validate_input exampleBody = (some exampleVector, []) := by decide

/-- Per-field error of the validation scan.  It depends only on the
field's own binding in the raw input, which is what makes the scan
independent across fields. -/
def errOf (data : List (String × JValue)) (p : String × FieldRule) :
    Option String :=
  match checkField p.1 p.2 (getField data p.1) with
  | .error e => some e
  | .ok _ => none

/-- Per-field coerced value of the validation scan. -/
def okOf (data : List (String × JValue)) (p : String × FieldRule) :
    Option ℚ :=
  match checkField p.1 p.2 (getField data p.1) with
  | .error _ => none
  | .ok x => some x

theorem validate_foldl (data : List (String × JValue))
    (l : List (String × FieldRule)) (es : List String) (vs : List ℚ) :
    l.foldl (fun (acc : List String × List ℚ) p =>
        match checkField p.1 p.2 (getField data p.1) with
        | .error e => (acc.1 ++ [e], acc.2)
        | .ok x => (acc.1, acc.2 ++ [x])) (es, vs)
      = (es ++ l.filterMap (errOf data), vs ++ l.filterMap (okOf data)) := by
  induction l generalizing es vs with
  | nil => simp
  | cons p l ih =>
      rcases h : checkField p.1 p.2 (getField data p.1) with e | x <;>
        simp [List.filterMap_cons, errOf, okOf, h, ih]

/-- The validation scan, characterised field by field: the error list is
the concatenation of the per-field errors in registry order, and the
vector, produced only when that list is empty, is the concatenation of
the per-field coerced values. -/
theorem validate_input_eq (data : List (String × JValue)) :
    validate_input data =
      ((if FIELD_RULES.filterMap (errOf data) = [] then
          some (FIELD_RULES.filterMap (okOf data)) else none),
        FIELD_RULES.filterMap (errOf data)) := by
  unfold validate_input
  rw [validate_foldl]
  simp

theorem errOf_eq_none_iff (data : List (String × JValue))
    (p : String × FieldRule) :
    errOf data p = none ↔
      ∃ x, checkField p.1 p.2 (getField data p.1) = .ok x := by
  rcases h : checkField p.1 p.2 (getField data p.1) with e | x <;>
    simp [errOf, h]

theorem okOf_eq_some_iff (data : List (String × JValue))
    (p : String × FieldRule) (x : ℚ) :
    okOf data p = some x ↔ checkField p.1 p.2 (getField data p.1) = .ok x := by
  rcases h : checkField p.1 p.2 (getField data p.1) with e | y <;>
    simp [okOf, h]

theorem errors_empty_iff (data : List (String × JValue)) :
    (validate_input data).2 = [] ↔
      ∀ p ∈ FIELD_RULES, ∃ x, checkField p.1 p.2 (getField data p.1) = .ok x := by
  rw [validate_input_eq]
  simp only [List.filterMap_eq_nil_iff]
  exact forall_congr' fun p => forall_congr' fun _ => errOf_eq_none_iff data p

theorem checkField_ok_range (field : String) (rule : FieldRule)
    (value? : Option JValue) (x : ℚ)
    (h : checkField field rule value? = .ok x) :
    rule.min ≤ x ∧ x ≤ rule.max := by
  unfold checkField at h
  split at h
  · cases h
  · cases h
  · split at h
    · cases h
    · split at h
      · rename_i hr
        cases h
        exact hr
      · cases h

theorem checkField_ok_coerce (field : String) (rule : FieldRule)
    (value? : Option JValue) (x : ℚ)
    (h : checkField field rule value? = .ok x) :
    ∃ v, value? = some v ∧ coerceValue rule v = some x := by
  unfold checkField at h
  split at h
  · cases h
  · cases h
  · rename_i v hnn
    split at h
    · cases h
    · rename_i y hc
      split at h
      · cases h
        exact ⟨v, rfl, hc⟩
      · cases h

theorem checkField_ok_int (field : String) (rule : FieldRule)
    (value? : Option JValue) (x : ℚ) (hi : rule.isInt = true)
    (h : checkField field rule value? = .ok x) :
    ∃ n : ℤ, x = (n : ℚ) := by
  obtain ⟨v, -, hc⟩ := checkField_ok_coerce field rule value? x h
  unfold coerceValue at hc
  rw [hi, if_pos rfl] at hc
  rcases hn : pyInt v with _ | n
  · rw [hn] at hc
    cases hc
  · rw [hn] at hc
    cases hc
    exact ⟨n, rfl⟩

theorem checkField_none (field : String) (rule : FieldRule) :
    checkField field rule none = .error (requiredMsg field) := rfl

theorem checkField_null (field : String) (rule : FieldRule) :
    checkField field rule (some .jnull) = .error (requiredMsg field) := rfl

theorem checkField_error_cases (field : String) (rule : FieldRule)
    (value? : Option JValue) (e : String)
    (h : checkField field rule value? = .error e) :
    e = requiredMsg field ∨ e = numberMsg field ∨
      e = rangeMsg field rule.minStr rule.maxStr := by
  unfold checkField at h
  split at h
  · cases h
    exact Or.inl rfl
  · cases h
    exact Or.inl rfl
  · split at h
    · cases h
      exact Or.inr (Or.inl rfl)
    · split at h
      · cases h
      · cases h
        exact Or.inr (Or.inr rfl)

theorem errOf_cases (data : List (String × JValue)) (p : String × FieldRule) :
    errOf data p = none ∨ errOf data p = some (requiredMsg p.1) ∨
      errOf data p = some (numberMsg p.1) ∨
      errOf data p = some (rangeMsg p.1 p.2.minStr p.2.maxStr) := by
  unfold errOf
  rcases h : checkField p.1 p.2 (getField data p.1) with e | x
  · rcases checkField_error_cases p.1 p.2 _ e h with rfl | rfl | rfl
    · exact Or.inr (Or.inl rfl)
    · exact Or.inr (Or.inr (Or.inl rfl))
    · exact Or.inr (Or.inr (Or.inr rfl))
  · exact Or.inl rfl

theorem filterMap_forall₂ {α β : Type _} (g : α → Option β) :
    ∀ l : List α, (∀ a ∈ l, ∃ b, g a = some b) →
      List.Forall₂ (fun a b => g a = some b) l (l.filterMap g)
  | [], _ => by simp
  | a :: l, h => by
      obtain ⟨b, hb⟩ := h a (List.mem_cons_self a l)
      rw [List.filterMap_cons_some hb]
      exact List.Forall₂.cons hb
        (filterMap_forall₂ g l fun x hx => h x (List.mem_cons_of_mem a hx))

theorem getField_foldl (name : String) (d : List (String × JValue))
    (init : Option JValue) :
    d.foldl (fun acc p => if p.1 = name then some p.2 else acc) init
      = ((getField d name).rec init some : Option JValue) := by
  induction d generalizing init with
  | nil => rfl
  | cons p d ih =>
      show d.foldl _ (if p.1 = name then some p.2 else init) = _
      rw [ih]
      have hcons : getField (p :: d) name
          = ((getField d name).rec (if p.1 = name then some p.2 else none)
              some : Option JValue) := by
        show d.foldl _ (if p.1 = name then some p.2 else none) = _
        rw [ih]
      rw [hcons]
      rcases getField d name with _ | v
      · by_cases hp : p.1 = name <;> simp [hp]
      · rfl

/-- Prepending a binding to the raw input only matters when no later
binding of the same key exists (Python's duplicate-key semantics). -/
theorem getField_cons (p : String × JValue) (d : List (String × JValue))
    (name : String) :
    getField (p :: d) name
      = ((getField d name).rec (if p.1 = name then some p.2 else none)
          some : Option JValue) := by
  show d.foldl _ (if p.1 = name then some p.2 else none) = _
  rw [getField_foldl]

theorem ratTrunc_intCast (n : ℤ) : ratTrunc (n : ℚ) = n := by
  unfold ratTrunc
  split
  · exact Int.floor_intCast n
  · exact Int.ceil_intCast n

/-- C1: the confidence score is the positive-class probability when the
predicted label is positive and its complement otherwise, and the
bucket is "High" for score >= 0.80, "Moderate" for 0.60 <= score < 0.80
and "Low" for score < 0.60, both boundaries belonging to the higher
bucket. -/
theorem c1_confidence_score_buckets (p s : ℚ) (c : ℤ) :
    (c = 1 → confidence_pct p c = p) ∧
    (c ≠ 1 → confidence_pct p c = 1 - p) ∧
    (80 / 100 ≤ s → confidence_label s = "High") ∧
    (60 / 100 ≤ s ∧ s < 80 / 100 → confidence_label s = "Moderate") ∧
    (s < 60 / 100 → confidence_label s = "Low") := by
  refine ⟨fun h => ?_, fun h => ?_, fun h => ?_, fun h => ?_, fun h => ?_⟩
  · rw [confidence_pct, if_pos h]
  · rw [confidence_pct, if_neg h]
  · rw [confidence_label, if_pos h]
  · rw [confidence_label, if_neg (not_le.mpr h.2), if_pos h.1]
  · rw [confidence_label, if_neg (not_le.mpr (h.trans (by norm_num))),
      if_neg (not_le.mpr h)]

theorem c1_confidence_score_buckets_witness :
    confidence_pct (3 / 10) 1 = 3 / 10 ∧
    confidence_pct (3 / 10) 0 = 7 / 10 ∧
    confidence_label (80 / 100) = "High" ∧
    confidence_label (60 / 100) = "Moderate" ∧
    confidence_label (59 / 100) = "Low" :=
  ⟨(c1_confidence_score_buckets (3 / 10) 0 1).1 rfl,
   ((c1_confidence_score_buckets (3 / 10) 0 0).2.1 (by decide)).trans
     (by norm_num),
   (c1_confidence_score_buckets 0 (80 / 100) 0).2.2.1 (by norm_num),
   (c1_confidence_score_buckets 0 (60 / 100) 0).2.2.2.1 (by norm_num),
   (c1_confidence_score_buckets 0 (59 / 100) 0).2.2.2.2 (by norm_num)⟩

/-- The response the route actually produces for the spec's example
input when the classifier returns positive-class probability 0.10 with
predicted label 0. -/
def exampleResponseP10 : SuccessBody :=
  { prediction := "Not Diabetic", diabetic := false,
    probability := 1 / 10, confidence := "High",
    confidence_score := 9 / 10, model := "Random Forest",
    input_features := feature_names.zip exampleVector }

/-- C2 counterexample: on the example input with returned positive-class
probability 0.10 (predicted label 0) the route answers diabetic false
and confidence score 0.9, but the bucket is "High" (0.9 >= 0.80), not
"Low" as the claim states. -/
theorem c2_example_counterexample :
    predict (constEngine 0 (1 / 10)) "Random Forest"
        (some (.jobj exampleBody)) = .success exampleResponseP10 ∧
      exampleResponseP10.diabetic = false ∧
      exampleResponseP10.confidence_score = 9 / 10 ∧
      exampleResponseP10.confidence ≠ "Low" := by
  refine ⟨by decide, rfl, rfl, by decide⟩

/-- C2 amended: for the example input with returned positive-class
probability 0.10 (predicted label negative), the response has
diabetic:false, confidence_score:0.9 and confidence:"High" (0.9 falls
in the "High" bucket by the score >= 0.80 rule). -/
theorem c2_example_amended :
    predict (constEngine 0 (1 / 10)) "Random Forest"
        (some (.jobj exampleBody)) = .success exampleResponseP10 ∧
      exampleResponseP10.diabetic = false ∧
      exampleResponseP10.confidence_score = 9 / 10 ∧
      exampleResponseP10.confidence = "High" :=
  ⟨by decide, rfl, rfl, rfl⟩

/-- The example request body with the fractional JSON number 33.5 bound
to Age. -/
def exampleBodyFracAge : List (String × JValue) :=
  [("Pregnancies", .jint 2),
   ("Glucose", .jint 120),
   ("BloodPressure", .jint 70),
   ("SkinThickness", .jint 20),
   ("Insulin", .jint 80),
   ("BMI", .jfloat 25),
   ("DiabetesPedigreeFunction", .jfloat (1 / 2)),
   ("Age", .jfloat (67 / 2))]

/-- C3 counterexample: a non-integral JSON number for Age is not
rejected; `int(33.5)` truncates to 33, validation reports no error and
the vector carries the truncated value. -/
theorem c3_frac_age_counterexample :
    validate_input exampleBodyFracAge
      = (some [2, 120, 70, 20, 80, 25, 1 / 2, 33], []) ∧
      (validate_input exampleBodyFracAge).2 = [] := by
  refine ⟨by decide, by decide⟩

/-- C3 amended: Age is coerced with Python `int()`, which truncates a
non-integral JSON number toward zero and accepts it (no error), while a
string that does not parse as an integer is rejected with the
must-be-a-number error; every other field is coerced to a real number
with `float()`. -/
theorem c3_age_coercion_amended (q : ℚ) (s : String)
    (p : String × FieldRule) (hp : p ∈ FIELD_RULES) :
    (p.1 = "Age" →
      p.2.isInt = true ∧
      coerceValue p.2 (.jfloat q) = some ((ratTrunc q : ℤ) : ℚ) ∧
      (parseIntStr s = none →
        checkField p.1 p.2 (some (.jstr s)) = .error (numberMsg p.1))) ∧
    (p.1 ≠ "Age" →
      p.2.isInt = false ∧ ∀ v, coerceValue p.2 v = pyFloat v) := by
  have hint : p.2.isInt = true → ∀ t : String, parseIntStr t = none →
      checkField p.1 p.2 (some (.jstr t)) = .error (numberMsg p.1) := by
    intro hi t ht
    have hcv : coerceValue p.2 (JValue.jstr t) = none := by
      simp [coerceValue, hi, pyInt, ht]
    show (match coerceValue p.2 (JValue.jstr t) with
      | none => Except.error (numberMsg p.1)
      | some x => if p.2.min ≤ x ∧ x ≤ p.2.max then Except.ok x
          else Except.error (rangeMsg p.1 p.2.minStr p.2.maxStr))
        = Except.error (numberMsg p.1)
    rw [hcv]
  have hflt : p.2.isInt = false → ∀ v, coerceValue p.2 v = pyFloat v := by
    intro hi v
    unfold coerceValue
    rw [hi]
    rfl
  fin_cases hp
  · exact ⟨fun h => absurd h (by decide), fun _ => ⟨rfl, hflt rfl⟩⟩
  · exact ⟨fun h => absurd h (by decide), fun _ => ⟨rfl, hflt rfl⟩⟩
  · exact ⟨fun h => absurd h (by decide), fun _ => ⟨rfl, hflt rfl⟩⟩
  · exact ⟨fun h => absurd h (by decide), fun _ => ⟨rfl, hflt rfl⟩⟩
  · exact ⟨fun h => absurd h (by decide), fun _ => ⟨rfl, hflt rfl⟩⟩
  · exact ⟨fun h => absurd h (by decide), fun _ => ⟨rfl, hflt rfl⟩⟩
  · exact ⟨fun h => absurd h (by decide), fun _ => ⟨rfl, hflt rfl⟩⟩
  · exact ⟨fun _ => ⟨rfl, rfl, hint rfl s⟩, fun h => absurd rfl h⟩

theorem c3_age_coercion_amended_witness :
    coerceValue ⟨18, 100, true, "18", "100"⟩ (.jfloat (67 / 2))
        = some ((ratTrunc (67 / 2) : ℤ) : ℚ) ∧
      checkField "Age" ⟨18, 100, true, "18", "100"⟩ (some (.jstr "33.5"))
        = .error (numberMsg "Age") ∧
      ((ratTrunc (67 / 2) : ℤ) : ℚ) = 33 ∧
      coerceValue ⟨50, 250, false, "50", "250"⟩ (.jstr "120")
        = pyFloat (.jstr "120") := by
  have hA := (c3_age_coercion_amended (67 / 2) "33.5"
    ("Age", ⟨18, 100, true, "18", "100"⟩) (by decide)).1 rfl
  have hG := (c3_age_coercion_amended 0 ""
    ("Glucose", ⟨50, 250, false, "50", "250"⟩) (by decide)).2 (by decide)
  exact ⟨hA.2.1, hA.2.2 (by decide), by decide, hG.2 _⟩

theorem checkField_getField_cons_null (field : String)
    (d : List (String × JValue)) (p : String × FieldRule) :
    checkField p.1 p.2 (getField ((field, JValue.jnull) :: d) p.1)
      = checkField p.1 p.2 (getField d p.1) := by
  rw [getField_cons]
  rcases h : getField d p.1 with _ | v
  · show checkField p.1 p.2 (if field = p.1 then some JValue.jnull else none)
      = checkField p.1 p.2 none
    by_cases hf : field = p.1
    · rw [if_pos hf, checkField_null, checkField_none]
    · rw [if_neg hf]
  · rfl

/-- C10: a field bound to JSON null is treated exactly like an absent
field: the per-field check yields the required-field error (not a
wrong-type or out-of-range error), it coincides with the check of a
missing binding, and a null binding that no later binding overrides
leaves the whole validation result unchanged. -/
theorem c10_null_treated_as_missing (field : String) (rule : FieldRule)
    (d : List (String × JValue)) :
    checkField field rule (some .jnull) = .error (requiredMsg field) ∧
    checkField field rule (some .jnull) = checkField field rule none ∧
    validate_input ((field, JValue.jnull) :: d) = validate_input d := by
  refine ⟨rfl, rfl, ?_⟩
  rw [validate_input_eq, validate_input_eq]
  have he : ∀ p ∈ FIELD_RULES,
      errOf ((field, JValue.jnull) :: d) p = errOf d p := by
    intro p _
    unfold errOf
    rw [checkField_getField_cons_null]
  have ho : ∀ p ∈ FIELD_RULES,
      okOf ((field, JValue.jnull) :: d) p = okOf d p := by
    intro p _
    unfold okOf
    rw [checkField_getField_cons_null]
  rw [List.filterMap_congr he, List.filterMap_congr ho]

theorem coerceValue_jnull (rule : FieldRule) :
    coerceValue rule .jnull = none := by
  unfold coerceValue
  cases h : rule.isInt <;> rfl

/-- C7: for every registry entry a coerced value equal to min or max is
accepted, and a coerced value strictly below min or strictly above max
is rejected with the between-min-and-max error carrying the entry's
rendered bounds. -/
theorem c7_inclusive_boundaries (p : String × FieldRule)
    (hp : p ∈ FIELD_RULES) (v : JValue) (x : ℚ)
    (hc : coerceValue p.2 v = some x) :
    ((x = p.2.min ∨ x = p.2.max) → checkField p.1 p.2 (some v) = .ok x) ∧
    ((x < p.2.min ∨ p.2.max < x) →
      checkField p.1 p.2 (some v)
        = .error (rangeMsg p.1 p.2.minStr p.2.maxStr)) := by
  have hminmax : p.2.min ≤ p.2.max := by fin_cases hp <;> decide
  have hvn : v ≠ JValue.jnull := by
    intro h
    rw [h, coerceValue_jnull] at hc
    cases hc
  have hshape : checkField p.1 p.2 (some v)
      = (match coerceValue p.2 v with
         | none => Except.error (numberMsg p.1)
         | some y => if p.2.min ≤ y ∧ y ≤ p.2.max then Except.ok y
             else Except.error (rangeMsg p.1 p.2.minStr p.2.maxStr)) := by
    cases v
    · exact absurd rfl hvn
    all_goals rfl
  have hsh : checkField p.1 p.2 (some v)
      = if p.2.min ≤ x ∧ x ≤ p.2.max then Except.ok x
        else Except.error (rangeMsg p.1 p.2.minStr p.2.maxStr) := by
    rw [hshape, hc]
  rw [hsh]
  constructor
  · rintro (rfl | rfl)
    · rw [if_pos ⟨le_refl _, hminmax⟩]
    · rw [if_pos ⟨hminmax, le_refl _⟩]
  · intro hout
    rw [if_neg]
    rintro ⟨h1, h2⟩
    rcases hout with h | h
    · exact absurd h1 (not_le.mpr h)
    · exact absurd h2 (not_le.mpr h)

theorem c7_inclusive_boundaries_witness :
    checkField "Glucose" ⟨50, 250, false, "50", "250"⟩ (some (.jint 50))
        = .ok 50 ∧
      checkField "Glucose" ⟨50, 250, false, "50", "250"⟩ (some (.jint 250))
        = .ok 250 ∧
      checkField "Glucose" ⟨50, 250, false, "50", "250"⟩ (some (.jint 251))
        = .error (rangeMsg "Glucose" "50" "250") := by
  refine ⟨?_, ?_, ?_⟩
  · exact (c7_inclusive_boundaries ("Glucose", ⟨50, 250, false, "50", "250"⟩)
      (by decide) (.jint 50) 50 (by decide)).1 (Or.inl (by decide))
  · exact (c7_inclusive_boundaries ("Glucose", ⟨50, 250, false, "50", "250"⟩)
      (by decide) (.jint 250) 250 (by decide)).1 (Or.inr (by decide))
  · exact (c7_inclusive_boundaries ("Glucose", ⟨50, 250, false, "50", "250"⟩)
      (by decide) (.jint 251) 251 (by decide)).2 (Or.inr (by decide))

theorem required_only_own :
    ∀ p ∈ FIELD_RULES, ∀ f ∈ feature_names, p.1 ≠ f →
      requiredMsg f ≠ requiredMsg p.1 ∧ requiredMsg f ≠ numberMsg p.1 ∧
      requiredMsg f ≠ rangeMsg p.1 p.2.minStr p.2.maxStr := by decide

theorem filterMap_eq_map_of_forall {α β : Type _} (g : α → Option β)
    (f : α → β) :
    ∀ l : List α, (∀ a ∈ l, g a = some (f a)) → l.filterMap g = l.map f
  | [], _ => rfl
  | a :: l, h => by
      rw [List.filterMap_cons_some (h a (List.mem_cons_self a l)),
        List.map_cons,
        filterMap_eq_map_of_forall g f l
          fun x hx => h x (List.mem_cons_of_mem a hx)]

/-- C5: the validator checks every registry entry with no short-circuit
(the error list is exactly the registry-ordered concatenation of the
per-field outcomes, each of which depends only on that field's own
binding); a missing field contributes exactly one error, the
required-field message for that field; an input in which all eight
fields are missing yields exactly the eight required-field messages,
one per field, in registry order, and those eight messages are pairwise
distinct. -/
theorem c5_full_scan_independent (data : List (String × JValue))
    (f : String) :
    ((validate_input data).2 = FIELD_RULES.filterMap (errOf data)) ∧
    (f ∈ feature_names → getField data f = none →
      (validate_input data).2.count (requiredMsg f) = 1) ∧
    ((∀ g ∈ feature_names, getField data g = none) →
      validate_input data = (none, FIELD_RULES.map fun p => requiredMsg p.1)) ∧
    (FIELD_RULES.map fun p => requiredMsg p.1).Nodup := by
  refine ⟨?_, ?_, ?_, by decide⟩
  · rw [validate_input_eq]
  · intro hf hmiss
    rw [validate_input_eq]
    show (FIELD_RULES.filterMap (errOf data)).count (requiredMsg f) = 1
    rw [List.count_filterMap]
    have h1 : ∀ p ∈ FIELD_RULES,
        ((errOf data p == some (requiredMsg f)) = true
          ↔ (p.1 == f) = true) := by
      intro p hp
      constructor
      · intro hbeq
        by_cases hpf : p.1 = f
        · simp [hpf]
        · exfalso
          rcases errOf_cases data p with h | h | h | h <;> rw [h] at hbeq
          · simp at hbeq
          · exact (required_only_own p hp f hf hpf).1
              (Option.some.inj (eq_of_beq hbeq)).symm
          · exact (required_only_own p hp f hf hpf).2.1
              (Option.some.inj (eq_of_beq hbeq)).symm
          · exact (required_only_own p hp f hf hpf).2.2
              (Option.some.inj (eq_of_beq hbeq)).symm
      · intro hbeq
        have hpf : p.1 = f := eq_of_beq hbeq
        have herr : errOf data p = some (requiredMsg p.1) := by
          unfold errOf
          rw [hpf, hmiss]
          rfl
        rw [herr, hpf]
        simp
    rw [List.countP_congr h1]
    have h2 : List.countP (fun p => p.1 == f) FIELD_RULES
        = List.count f feature_names := by
      show _ = List.count f (FIELD_RULES.map Prod.fst)
      rw [List.count_eq_countP, List.countP_map]
      rfl
    rw [h2]
    exact List.count_eq_one_of_mem (by decide) hf
  · intro hall
    rw [validate_input_eq]
    have he : ∀ p ∈ FIELD_RULES, errOf data p = some (requiredMsg p.1) := by
      intro p hp
      have hm : getField data p.1 = none :=
        hall p.1 (List.mem_map_of_mem Prod.fst hp)
      unfold errOf
      rw [hm]
      rfl
    rw [filterMap_eq_map_of_forall (errOf data) (fun p => requiredMsg p.1)
      FIELD_RULES he]
    rw [if_neg (by decide)]

theorem c5_full_scan_independent_witness :
    (validate_input exampleBody).2 = FIELD_RULES.filterMap (errOf exampleBody) ∧
    (validate_input [("Glucose", JValue.jint 300)]).2.count
        (requiredMsg "Age") = 1 ∧
    validate_input [] = (none, FIELD_RULES.map fun p => requiredMsg p.1) := by
  refine ⟨(c5_full_scan_independent exampleBody "Age").1, ?_, ?_⟩
  · exact (c5_full_scan_independent [("Glucose", JValue.jint 300)] "Age").2.1
      (by decide) rfl
  · exact (c5_full_scan_independent [] "Age").2.2.1 fun g hg => rfl

theorem validate_input_of_no_errors (data : List (String × JValue))
    (h : (validate_input data).2 = []) :
    validate_input data = (some (FIELD_RULES.filterMap (okOf data)), []) := by
  have h2 : FIELD_RULES.filterMap (errOf data) = [] := by
    rw [validate_input_eq] at h
    exact h
  rw [validate_input_eq, h2, if_pos rfl]

theorem validate_input_of_errors (data : List (String × JValue))
    (h : (validate_input data).2 ≠ []) :
    (validate_input data).1 = none := by
  have h2 : FIELD_RULES.filterMap (errOf data) ≠ [] := by
    rw [validate_input_eq] at h
    exact h
  rw [validate_input_eq]
  exact if_neg h2

/-- C6: when validation reports no error the returned feature vector
has one entry per registry rule and every entry lies within its rule's
inclusive range, in registry order; when any error is reported, no
vector is returned. -/
theorem c6_vector_invariant (data : List (String × JValue)) :
    ((validate_input data).2 = [] →
      ∃ v, (validate_input data).1 = some v ∧
        v.length = FIELD_RULES.length ∧
        List.Forall₂ (fun (p : String × FieldRule) (x : ℚ) =>
          p.2.min ≤ x ∧ x ≤ p.2.max) FIELD_RULES v) ∧
    ((validate_input data).2 ≠ [] → (validate_input data).1 = none) := by
  constructor
  · intro hemp
    have hallo : ∀ p ∈ FIELD_RULES, ∃ x, okOf data p = some x := by
      intro p hp
      obtain ⟨x, hx⟩ := (errors_empty_iff data).mp hemp p hp
      exact ⟨x, (okOf_eq_some_iff data p x).mpr hx⟩
    have hF := filterMap_forall₂ (okOf data) FIELD_RULES hallo
    refine ⟨FIELD_RULES.filterMap (okOf data), ?_, hF.length_eq.symm, ?_⟩
    · rw [validate_input_of_no_errors data hemp]
    · exact hF.imp fun p x hr =>
        checkField_ok_range p.1 p.2 (getField data p.1) x
          ((okOf_eq_some_iff data p x).mp hr)
  · exact validate_input_of_errors data

theorem c6_vector_invariant_witness :
    (∃ v, (validate_input exampleBody).1 = some v ∧
      v.length = FIELD_RULES.length ∧
      List.Forall₂ (fun (p : String × FieldRule) (x : ℚ) =>
        p.2.min ≤ x ∧ x ≤ p.2.max) FIELD_RULES v) ∧
    (validate_input []).1 = none :=
  ⟨(c6_vector_invariant exampleBody).1 (by decide),
   (c6_vector_invariant []).2 (by decide)⟩

theorem predict_not_malformed_of_truthy (eng : Engine) (m : String)
    (b : JValue) (hb : b.truthy = true) :
    ∀ msg, predict eng m (some b) ≠ .malformed msg := by
  intro msg h
  cases b with
  | jobj data =>
      simp only [predict, hb, Bool.not_true, Bool.false_eq_true,
        if_false] at h
      rcases hv : validate_input data with ⟨fv, errs⟩
      rw [hv] at h
      rcases errs with _ | ⟨e, es⟩
      · rcases fv with _ | v
        · exact PredictResult.noConfusion
            (show PredictResult.fault = PredictResult.malformed msg from h)
        · exact PredictResult.noConfusion
            (show PredictResult.success _ = PredictResult.malformed msg from h)
      · rcases fv with _ | v <;>
          exact PredictResult.noConfusion
            (show PredictResult.invalid (e :: es)
              = PredictResult.malformed msg from h)
  | jnull =>
      simp only [predict, hb, Bool.not_true, Bool.false_eq_true,
        if_false] at h
      exact PredictResult.noConfusion h
  | jbool c =>
      simp only [predict, hb, Bool.not_true, Bool.false_eq_true,
        if_false] at h
      exact PredictResult.noConfusion h
  | jint n =>
      simp only [predict, hb, Bool.not_true, Bool.false_eq_true,
        if_false] at h
      exact PredictResult.noConfusion h
  | jfloat q =>
      simp only [predict, hb, Bool.not_true, Bool.false_eq_true,
        if_false] at h
      exact PredictResult.noConfusion h
  | jstr s =>
      simp only [predict, hb, Bool.not_true, Bool.false_eq_true,
        if_false] at h
      exact PredictResult.noConfusion h
  | jarr elems =>
      simp only [predict, hb, Bool.not_true, Bool.false_eq_true,
        if_false] at h
      exact PredictResult.noConfusion h

/-- C4 amended: the route answers the single malformed-request error
exactly when the body is absent, unparseable, or parses to a JSON value
that is falsy in Python — which includes the empty object; for every
body parsing to a non-empty JSON object, validation runs and a
non-empty error set is returned as the accumulated per-field errors,
while an empty error set leads to a successful prediction. -/
theorem c4_malformed_condition (eng : Engine) (m : String)
    (body? : Option JValue) (data : List (String × JValue)) :
    (predict eng m body? = .malformed "Request body must be JSON." ↔
      body? = none ∨ ∃ b, body? = some b ∧ b.truthy = false) ∧
    (data ≠ [] → (validate_input data).2 ≠ [] →
      predict eng m (some (.jobj data)) = .invalid (validate_input data).2) ∧
    (data ≠ [] → (validate_input data).2 = [] →
      ∃ s, predict eng m (some (.jobj data)) = .success s) := by
  refine ⟨⟨?_, ?_⟩, ?_, ?_⟩
  · intro h
    rcases body? with _ | b
    · exact Or.inl rfl
    · right
      refine ⟨b, rfl, ?_⟩
      cases hbt : b.truthy
      · rfl
      · exact absurd h (predict_not_malformed_of_truthy eng m b hbt _)
  · intro h
    rcases h with rfl | ⟨b, rfl, hb⟩
    · rfl
    · simp only [predict, hb, Bool.not_false, if_true]
  · intro hne herr
    have htr : (JValue.jobj data).truthy = true := by
      cases data
      · exact absurd rfl hne
      · rfl
    simp only [predict, htr, Bool.not_true, Bool.false_eq_true, if_false]
    rcases hv : validate_input data with ⟨fv, errs⟩
    rcases errs with _ | ⟨e, es⟩
    · rw [hv] at herr
      exact absurd rfl herr
    · rcases fv with _ | v <;> rfl
  · intro hne hemp
    have htr : (JValue.jobj data).truthy = true := by
      cases data
      · exact absurd rfl hne
      · rfl
    simp only [predict, htr, Bool.not_true, Bool.false_eq_true, if_false]
    rw [validate_input_of_no_errors data hemp]
    exact ⟨_, rfl⟩

theorem c4_malformed_condition_witness :
    predict (constEngine 0 0) "Random Forest" none
        = .malformed "Request body must be JSON." ∧
    (∃ s, predict (constEngine 0 0) "Random Forest"
        (some (.jobj exampleBody)) = .success s) ∧
    predict (constEngine 0 0) "Random Forest"
        (some (.jobj [("Glucose", JValue.jnull)]))
      = .invalid (validate_input [("Glucose", JValue.jnull)]).2 := by
  refine ⟨?_, ?_, ?_⟩
  · exact (c4_malformed_condition (constEngine 0 0) "Random Forest"
      none []).1.mpr (Or.inl rfl)
  · exact (c4_malformed_condition (constEngine 0 0) "Random Forest"
      (some (.jobj exampleBody)) exampleBody).2.2
      (by simp [exampleBody]) (by decide)
  · exact (c4_malformed_condition (constEngine 0 0) "Random Forest"
      (some (.jobj [("Glucose", JValue.jnull)]))
      [("Glucose", JValue.jnull)]).2.1 (List.cons_ne_nil _ _) (by decide)

/-- C4 counterexample: the empty JSON object is falsy in Python, so the
route answers the malformed-request error for it without attempting
validation, although the body parses as a JSON object; had validation
run, it would have produced the eight per-field errors. -/
theorem c4_empty_object_counterexample :
    predict (constEngine 0 0) "Random Forest" (some (.jobj []))
        = .malformed "Request body must be JSON." ∧
      (validate_input []).2.length = 8 ∧
      predict (constEngine 0 0) "Random Forest" (some (.jobj []))
        ≠ .invalid (validate_input []).2 := by
  exact ⟨by decide, by decide, by decide⟩

/-- C9: `predict` is a pure function of the engine and the body — the
code performs no I/O and mutates no state between the scaling,
classification, bucketing and assembly steps — so two calls on the same
input with the same engine yield identical probability, label, bucket
and score. -/
theorem c9_predict_deterministic (eng : Engine) (m : String)
    (body? : Option JValue) (r₁ r₂ : PredictResult)
    (h₁ : predict eng m body? = r₁) (h₂ : predict eng m body? = r₂) :
    r₁ = r₂ ∧
    ∀ s₁ s₂, r₁ = .success s₁ → r₂ = .success s₂ →
      s₁.probability = s₂.probability ∧ s₁.prediction = s₂.prediction ∧
      s₁.diabetic = s₂.diabetic ∧ s₁.confidence = s₂.confidence ∧
      s₁.confidence_score = s₂.confidence_score := by
  subst h₁
  subst h₂
  refine ⟨rfl, fun s₁ s₂ e₁ e₂ => ?_⟩
  rw [e₁] at e₂
  cases e₂
  exact ⟨rfl, rfl, rfl, rfl, rfl⟩

theorem c9_predict_deterministic_witness :
    predict (constEngine 1 (83 / 100)) "Random Forest"
        (some (.jobj exampleBody))
      = predict (constEngine 1 (83 / 100)) "Random Forest"
        (some (.jobj exampleBody)) :=
  (c9_predict_deterministic (constEngine 1 (83 / 100)) "Random Forest"
    (some (.jobj exampleBody)) _ _ rfl rfl).1

theorem errOf_of_ok (data : List (String × JValue)) (p : String × FieldRule)
    (x : ℚ) (h : checkField p.1 p.2 (getField data p.1) = .ok x) :
    errOf data p = none := by
  unfold errOf
  rw [h]

theorem okOf_of_ok (data : List (String × JValue)) (p : String × FieldRule)
    (x : ℚ) (h : checkField p.1 p.2 (getField data p.1) = .ok x) :
    okOf data p = some x :=
  (okOf_eq_some_iff data p x).mpr h

theorem checkField_jfloat_ok (field : String) (rule : FieldRule) (x : ℚ)
    (hi : rule.isInt = false) (hr : rule.min ≤ x ∧ x ≤ rule.max) :
    checkField field rule (some (.jfloat x)) = .ok x := by
  have hcv : coerceValue rule (JValue.jfloat x) = some x := by
    simp [coerceValue, hi, pyFloat]
  show (match coerceValue rule (JValue.jfloat x) with
    | none => Except.error (numberMsg field)
    | some y => if rule.min ≤ y ∧ y ≤ rule.max then Except.ok y
        else Except.error (rangeMsg field rule.minStr rule.maxStr))
    = Except.ok x
  rw [hcv]
  show (if rule.min ≤ x ∧ x ≤ rule.max then Except.ok x
    else Except.error (rangeMsg field rule.minStr rule.maxStr)) = Except.ok x
  rw [if_pos hr]

theorem checkField_jfloat_int_ok (field : String) (rule : FieldRule) (n : ℤ)
    (hi : rule.isInt = true)
    (hr : rule.min ≤ (n : ℚ) ∧ (n : ℚ) ≤ rule.max) :
    checkField field rule (some (.jfloat (n : ℚ))) = .ok (n : ℚ) := by
  have hcv : coerceValue rule (JValue.jfloat (n : ℚ)) = some (n : ℚ) := by
    simp [coerceValue, hi, pyInt, ratTrunc_intCast]
  show (match coerceValue rule (JValue.jfloat (n : ℚ)) with
    | none => Except.error (numberMsg field)
    | some y => if rule.min ≤ y ∧ y ≤ rule.max then Except.ok y
        else Except.error (rangeMsg field rule.minStr rule.maxStr))
    = Except.ok (n : ℚ)
  rw [hcv]
  show (if rule.min ≤ (n : ℚ) ∧ (n : ℚ) ≤ rule.max then Except.ok (n : ℚ)
    else Except.error (rangeMsg field rule.minStr rule.maxStr))
      = Except.ok (n : ℚ)
  rw [if_pos hr]

/-- Core of the round trip: a vector that passed validation, re-encoded
as JSON numbers under the registry's field names (exactly the
`input_features` echo), passes validation again and reproduces the same
vector. -/
theorem validate_round_trip (data : List (String × JValue)) (v : List ℚ)
    (h : validate_input data = (some v, [])) :
    validate_input ((feature_names.zip v).map
      (fun q => (q.1, JValue.jfloat q.2))) = (some v, []) := by
  have hemp : (validate_input data).2 = [] := by rw [h]
  have hall := (errors_empty_iff data).mp hemp
  obtain ⟨x0, hc0⟩ := hall ("Pregnancies", ⟨0, 20, false, "0", "20"⟩) (by decide)
  obtain ⟨x1, hc1⟩ := hall ("Glucose", ⟨50, 250, false, "50", "250"⟩) (by decide)
  obtain ⟨x2, hc2⟩ := hall ("BloodPressure", ⟨30, 150, false, "30", "150"⟩) (by decide)
  obtain ⟨x3, hc3⟩ := hall ("SkinThickness", ⟨0, 100, false, "0", "100"⟩) (by decide)
  obtain ⟨x4, hc4⟩ := hall ("Insulin", ⟨0, 900, false, "0", "900"⟩) (by decide)
  obtain ⟨x5, hc5⟩ := hall ("BMI", ⟨10, 70, false, "10", "70"⟩) (by decide)
  obtain ⟨x6, hc6⟩ := hall ("DiabetesPedigreeFunction", ⟨1 / 20, 5 / 2, false, "0.05", "2.5"⟩) (by decide)
  obtain ⟨x7, hc7⟩ := hall ("Age", ⟨18, 100, true, "18", "100"⟩) (by decide)
  have hfmv : FIELD_RULES.filterMap (okOf data) = [x0, x1, x2, x3, x4, x5, x6, x7] := by
    show List.filterMap (okOf data)
      [("Pregnancies", ⟨0, 20, false, "0", "20"⟩),
       ("Glucose", ⟨50, 250, false, "50", "250"⟩),
       ("BloodPressure", ⟨30, 150, false, "30", "150"⟩),
       ("SkinThickness", ⟨0, 100, false, "0", "100"⟩),
       ("Insulin", ⟨0, 900, false, "0", "900"⟩),
       ("BMI", ⟨10, 70, false, "10", "70"⟩),
       ("DiabetesPedigreeFunction", ⟨1 / 20, 5 / 2, false, "0.05", "2.5"⟩),
       ("Age", ⟨18, 100, true, "18", "100"⟩)] = _
    rw [List.filterMap_cons_some (okOf_of_ok data ("Pregnancies", ⟨0, 20, false, "0", "20"⟩) x0 hc0),
      List.filterMap_cons_some (okOf_of_ok data ("Glucose", ⟨50, 250, false, "50", "250"⟩) x1 hc1),
      List.filterMap_cons_some (okOf_of_ok data ("BloodPressure", ⟨30, 150, false, "30", "150"⟩) x2 hc2),
      List.filterMap_cons_some (okOf_of_ok data ("SkinThickness", ⟨0, 100, false, "0", "100"⟩) x3 hc3),
      List.filterMap_cons_some (okOf_of_ok data ("Insulin", ⟨0, 900, false, "0", "900"⟩) x4 hc4),
      List.filterMap_cons_some (okOf_of_ok data ("BMI", ⟨10, 70, false, "10", "70"⟩) x5 hc5),
      List.filterMap_cons_some (okOf_of_ok data ("DiabetesPedigreeFunction", ⟨1 / 20, 5 / 2, false, "0.05", "2.5"⟩) x6 hc6),
      List.filterMap_cons_some (okOf_of_ok data ("Age", ⟨18, 100, true, "18", "100"⟩) x7 hc7),
      List.filterMap_nil]
  have hv : v = [x0, x1, x2, x3, x4, x5, x6, x7] := by
    have hne := validate_input_of_no_errors data hemp
    rw [h] at hne
    have h1 := congrArg Prod.fst hne
    rw [hfmv] at h1
    exact Option.some.inj h1
  subst hv
  have hr0 := checkField_ok_range "Pregnancies" (⟨0, 20, false, "0", "20"⟩ : FieldRule)
    (getField data "Pregnancies") x0 hc0
  have hr1 := checkField_ok_range "Glucose" (⟨50, 250, false, "50", "250"⟩ : FieldRule)
    (getField data "Glucose") x1 hc1
  have hr2 := checkField_ok_range "BloodPressure" (⟨30, 150, false, "30", "150"⟩ : FieldRule)
    (getField data "BloodPressure") x2 hc2
  have hr3 := checkField_ok_range "SkinThickness" (⟨0, 100, false, "0", "100"⟩ : FieldRule)
    (getField data "SkinThickness") x3 hc3
  have hr4 := checkField_ok_range "Insulin" (⟨0, 900, false, "0", "900"⟩ : FieldRule)
    (getField data "Insulin") x4 hc4
  have hr5 := checkField_ok_range "BMI" (⟨10, 70, false, "10", "70"⟩ : FieldRule)
    (getField data "BMI") x5 hc5
  have hr6 := checkField_ok_range "DiabetesPedigreeFunction" (⟨1 / 20, 5 / 2, false, "0.05", "2.5"⟩ : FieldRule)
    (getField data "DiabetesPedigreeFunction") x6 hc6
  have hr7 := checkField_ok_range "Age" (⟨18, 100, true, "18", "100"⟩ : FieldRule)
    (getField data "Age") x7 hc7
  obtain ⟨n, hn⟩ := checkField_ok_int "Age" (⟨18, 100, true, "18", "100"⟩ : FieldRule)
    (getField data "Age") x7 rfl hc7
  subst hn
  have hd : (feature_names.zip [x0, x1, x2, x3, x4, x5, x6, (n : ℚ)]).map
      (fun q => (q.1, JValue.jfloat q.2))
      = [("Pregnancies", JValue.jfloat x0),
       ("Glucose", JValue.jfloat x1),
       ("BloodPressure", JValue.jfloat x2),
       ("SkinThickness", JValue.jfloat x3),
       ("Insulin", JValue.jfloat x4),
       ("BMI", JValue.jfloat x5),
       ("DiabetesPedigreeFunction", JValue.jfloat x6),
       ("Age", JValue.jfloat (n : ℚ))] := rfl
  rw [hd]
  have hc0' : checkField "Pregnancies" (⟨0, 20, false, "0", "20"⟩ : FieldRule)
      (getField [("Pregnancies", JValue.jfloat x0),
       ("Glucose", JValue.jfloat x1),
       ("BloodPressure", JValue.jfloat x2),
       ("SkinThickness", JValue.jfloat x3),
       ("Insulin", JValue.jfloat x4),
       ("BMI", JValue.jfloat x5),
       ("DiabetesPedigreeFunction", JValue.jfloat x6),
       ("Age", JValue.jfloat (n : ℚ))] "Pregnancies") = .ok x0 :=
    checkField_jfloat_ok _ _ _ rfl hr0
  have hc1' : checkField "Glucose" (⟨50, 250, false, "50", "250"⟩ : FieldRule)
      (getField [("Pregnancies", JValue.jfloat x0),
       ("Glucose", JValue.jfloat x1),
       ("BloodPressure", JValue.jfloat x2),
       ("SkinThickness", JValue.jfloat x3),
       ("Insulin", JValue.jfloat x4),
       ("BMI", JValue.jfloat x5),
       ("DiabetesPedigreeFunction", JValue.jfloat x6),
       ("Age", JValue.jfloat (n : ℚ))] "Glucose") = .ok x1 :=
    checkField_jfloat_ok _ _ _ rfl hr1
  have hc2' : checkField "BloodPressure" (⟨30, 150, false, "30", "150"⟩ : FieldRule)
      (getField [("Pregnancies", JValue.jfloat x0),
       ("Glucose", JValue.jfloat x1),
       ("BloodPressure", JValue.jfloat x2),
       ("SkinThickness", JValue.jfloat x3),
       ("Insulin", JValue.jfloat x4),
       ("BMI", JValue.jfloat x5),
       ("DiabetesPedigreeFunction", JValue.jfloat x6),
       ("Age", JValue.jfloat (n : ℚ))] "BloodPressure") = .ok x2 :=
    checkField_jfloat_ok _ _ _ rfl hr2
  have hc3' : checkField "SkinThickness" (⟨0, 100, false, "0", "100"⟩ : FieldRule)
      (getField [("Pregnancies", JValue.jfloat x0),
       ("Glucose", JValue.jfloat x1),
       ("BloodPressure", JValue.jfloat x2),
       ("SkinThickness", JValue.jfloat x3),
       ("Insulin", JValue.jfloat x4),
       ("BMI", JValue.jfloat x5),
       ("DiabetesPedigreeFunction", JValue.jfloat x6),
       ("Age", JValue.jfloat (n : ℚ))] "SkinThickness") = .ok x3 :=
    checkField_jfloat_ok _ _ _ rfl hr3
  have hc4' : checkField "Insulin" (⟨0, 900, false, "0", "900"⟩ : FieldRule)
      (getField [("Pregnancies", JValue.jfloat x0),
       ("Glucose", JValue.jfloat x1),
       ("BloodPressure", JValue.jfloat x2),
       ("SkinThickness", JValue.jfloat x3),
       ("Insulin", JValue.jfloat x4),
       ("BMI", JValue.jfloat x5),
       ("DiabetesPedigreeFunction", JValue.jfloat x6),
       ("Age", JValue.jfloat (n : ℚ))] "Insulin") = .ok x4 :=
    checkField_jfloat_ok _ _ _ rfl hr4
  have hc5' : checkField "BMI" (⟨10, 70, false, "10", "70"⟩ : FieldRule)
      (getField [("Pregnancies", JValue.jfloat x0),
       ("Glucose", JValue.jfloat x1),
       ("BloodPressure", JValue.jfloat x2),
       ("SkinThickness", JValue.jfloat x3),
       ("Insulin", JValue.jfloat x4),
       ("BMI", JValue.jfloat x5),
       ("DiabetesPedigreeFunction", JValue.jfloat x6),
       ("Age", JValue.jfloat (n : ℚ))] "BMI") = .ok x5 :=
    checkField_jfloat_ok _ _ _ rfl hr5
  have hc6' : checkField "DiabetesPedigreeFunction" (⟨1 / 20, 5 / 2, false, "0.05", "2.5"⟩ : FieldRule)
      (getField [("Pregnancies", JValue.jfloat x0),
       ("Glucose", JValue.jfloat x1),
       ("BloodPressure", JValue.jfloat x2),
       ("SkinThickness", JValue.jfloat x3),
       ("Insulin", JValue.jfloat x4),
       ("BMI", JValue.jfloat x5),
       ("DiabetesPedigreeFunction", JValue.jfloat x6),
       ("Age", JValue.jfloat (n : ℚ))] "DiabetesPedigreeFunction") = .ok x6 :=
    checkField_jfloat_ok _ _ _ rfl hr6
  have hc7' : checkField "Age" (⟨18, 100, true, "18", "100"⟩ : FieldRule)
      (getField [("Pregnancies", JValue.jfloat x0),
       ("Glucose", JValue.jfloat x1),
       ("BloodPressure", JValue.jfloat x2),
       ("SkinThickness", JValue.jfloat x3),
       ("Insulin", JValue.jfloat x4),
       ("BMI", JValue.jfloat x5),
       ("DiabetesPedigreeFunction", JValue.jfloat x6),
       ("Age", JValue.jfloat (n : ℚ))] "Age") = .ok (n : ℚ) :=
    checkField_jfloat_int_ok _ _ _ rfl hr7
  rw [validate_input_eq]
  have herrs : FIELD_RULES.filterMap (errOf [("Pregnancies", JValue.jfloat x0),
       ("Glucose", JValue.jfloat x1),
       ("BloodPressure", JValue.jfloat x2),
       ("SkinThickness", JValue.jfloat x3),
       ("Insulin", JValue.jfloat x4),
       ("BMI", JValue.jfloat x5),
       ("DiabetesPedigreeFunction", JValue.jfloat x6),
       ("Age", JValue.jfloat (n : ℚ))]) = [] := by
    show List.filterMap (errOf [("Pregnancies", JValue.jfloat x0),
       ("Glucose", JValue.jfloat x1),
       ("BloodPressure", JValue.jfloat x2),
       ("SkinThickness", JValue.jfloat x3),
       ("Insulin", JValue.jfloat x4),
       ("BMI", JValue.jfloat x5),
       ("DiabetesPedigreeFunction", JValue.jfloat x6),
       ("Age", JValue.jfloat (n : ℚ))])
      [("Pregnancies", ⟨0, 20, false, "0", "20"⟩),
       ("Glucose", ⟨50, 250, false, "50", "250"⟩),
       ("BloodPressure", ⟨30, 150, false, "30", "150"⟩),
       ("SkinThickness", ⟨0, 100, false, "0", "100"⟩),
       ("Insulin", ⟨0, 900, false, "0", "900"⟩),
       ("BMI", ⟨10, 70, false, "10", "70"⟩),
       ("DiabetesPedigreeFunction", ⟨1 / 20, 5 / 2, false, "0.05", "2.5"⟩),
       ("Age", ⟨18, 100, true, "18", "100"⟩)] = _
    rw [List.filterMap_cons_none (errOf_of_ok _ ("Pregnancies", ⟨0, 20, false, "0", "20"⟩) _ hc0'),
      List.filterMap_cons_none (errOf_of_ok _ ("Glucose", ⟨50, 250, false, "50", "250"⟩) _ hc1'),
      List.filterMap_cons_none (errOf_of_ok _ ("BloodPressure", ⟨30, 150, false, "30", "150"⟩) _ hc2'),
      List.filterMap_cons_none (errOf_of_ok _ ("SkinThickness", ⟨0, 100, false, "0", "100"⟩) _ hc3'),
      List.filterMap_cons_none (errOf_of_ok _ ("Insulin", ⟨0, 900, false, "0", "900"⟩) _ hc4'),
      List.filterMap_cons_none (errOf_of_ok _ ("BMI", ⟨10, 70, false, "10", "70"⟩) _ hc5'),
      List.filterMap_cons_none (errOf_of_ok _ ("DiabetesPedigreeFunction", ⟨1 / 20, 5 / 2, false, "0.05", "2.5"⟩) _ hc6'),
      List.filterMap_cons_none (errOf_of_ok _ ("Age", ⟨18, 100, true, "18", "100"⟩) _ hc7'),
      List.filterMap_nil]
  have hoks : FIELD_RULES.filterMap (okOf [("Pregnancies", JValue.jfloat x0),
       ("Glucose", JValue.jfloat x1),
       ("BloodPressure", JValue.jfloat x2),
       ("SkinThickness", JValue.jfloat x3),
       ("Insulin", JValue.jfloat x4),
       ("BMI", JValue.jfloat x5),
       ("DiabetesPedigreeFunction", JValue.jfloat x6),
       ("Age", JValue.jfloat (n : ℚ))]) = [x0, x1, x2, x3, x4, x5, x6, (n : ℚ)] := by
    show List.filterMap (okOf [("Pregnancies", JValue.jfloat x0),
       ("Glucose", JValue.jfloat x1),
       ("BloodPressure", JValue.jfloat x2),
       ("SkinThickness", JValue.jfloat x3),
       ("Insulin", JValue.jfloat x4),
       ("BMI", JValue.jfloat x5),
       ("DiabetesPedigreeFunction", JValue.jfloat x6),
       ("Age", JValue.jfloat (n : ℚ))])
      [("Pregnancies", ⟨0, 20, false, "0", "20"⟩),
       ("Glucose", ⟨50, 250, false, "50", "250"⟩),
       ("BloodPressure", ⟨30, 150, false, "30", "150"⟩),
       ("SkinThickness", ⟨0, 100, false, "0", "100"⟩),
       ("Insulin", ⟨0, 900, false, "0", "900"⟩),
       ("BMI", ⟨10, 70, false, "10", "70"⟩),
       ("DiabetesPedigreeFunction", ⟨1 / 20, 5 / 2, false, "0.05", "2.5"⟩),
       ("Age", ⟨18, 100, true, "18", "100"⟩)] = _
    rw [List.filterMap_cons_some (okOf_of_ok _ ("Pregnancies", ⟨0, 20, false, "0", "20"⟩) _ hc0'),
      List.filterMap_cons_some (okOf_of_ok _ ("Glucose", ⟨50, 250, false, "50", "250"⟩) _ hc1'),
      List.filterMap_cons_some (okOf_of_ok _ ("BloodPressure", ⟨30, 150, false, "30", "150"⟩) _ hc2'),
      List.filterMap_cons_some (okOf_of_ok _ ("SkinThickness", ⟨0, 100, false, "0", "100"⟩) _ hc3'),
      List.filterMap_cons_some (okOf_of_ok _ ("Insulin", ⟨0, 900, false, "0", "900"⟩) _ hc4'),
      List.filterMap_cons_some (okOf_of_ok _ ("BMI", ⟨10, 70, false, "10", "70"⟩) _ hc5'),
      List.filterMap_cons_some (okOf_of_ok _ ("DiabetesPedigreeFunction", ⟨1 / 20, 5 / 2, false, "0.05", "2.5"⟩) _ hc6'),
      List.filterMap_cons_some (okOf_of_ok _ ("Age", ⟨18, 100, true, "18", "100"⟩) _ hc7'),
      List.filterMap_nil]
  rw [herrs, hoks, if_pos rfl]

/-- C8: for every successful prediction the echoed `input_features` are
the registry names zipped with the validated vector, and re-submitting
that object as a new request body (its values arriving as JSON numbers)
passes validation with zero errors and reproduces the identical
feature vector. -/
theorem c8_round_trip (eng : Engine) (m : String)
    (data : List (String × JValue)) (s : SuccessBody)
    (h : predict eng m (some (.jobj data)) = .success s) :
    ∃ v, validate_input data = (some v, []) ∧
      s.input_features = feature_names.zip v ∧
      validate_input (s.input_features.map
        (fun q => (q.1, JValue.jfloat q.2))) = (some v, []) := by
  by_cases hd : data = []
  · subst hd
    exact PredictResult.noConfusion
      (show PredictResult.malformed "Request body must be JSON."
        = PredictResult.success s from h)
  · have htr : (JValue.jobj data).truthy = true := by
      cases data
      · exact absurd rfl hd
      · rfl
    simp only [predict, htr, Bool.not_true, Bool.false_eq_true,
      if_false] at h
    rcases hv : validate_input data with ⟨fv, errs⟩
    rw [hv] at h
    rcases errs with _ | ⟨e, es⟩
    · rcases fv with _ | v
      · exact PredictResult.noConfusion
          (show PredictResult.fault = PredictResult.success s from h)
      · have hs := PredictResult.success.inj
          (show PredictResult.success _ = PredictResult.success s from h)
        refine ⟨v, rfl, ?_, ?_⟩
        · rw [← hs]
        · rw [← hs]
          exact validate_round_trip data v hv
    · rcases fv with _ | w <;>
        exact PredictResult.noConfusion
          (show PredictResult.invalid (e :: es)
            = PredictResult.success s from h)

theorem c8_round_trip_witness :
    ∃ v, validate_input exampleBody = (some v, []) ∧
      exampleResponseP10.input_features = feature_names.zip v ∧
      validate_input (exampleResponseP10.input_features.map
        (fun q => (q.1, JValue.jfloat q.2))) = (some v, []) :=
  c8_round_trip (constEngine 0 (1 / 10)) "Random Forest" exampleBody
    exampleResponseP10 (by decide)
